import Mathlib

/-!
Verification of the VeSync humidifier and binary-sensor entity adapters
(`homeassistant/components/vesync/humidifier.py` and
`homeassistant/components/vesync/binary_sensor.py`).

The device handle (`smarthumidifier`) is an opaque external SDK object: the
adapter reads its attributes (`is_on`, `auto_enabled`, `auto_humidity`,
`device_type`) and issues fire-and-forget commands.  We embed the adapter as
pure functions over an explicit `DeviceState` (the handle's attributes, never
mutated by the adapter itself) and an `EntityState` (the cached per-entity
fields), returning the list of commands issued to the handle and an optional
Python exception.
-/

/- Constants from humidifier.py. -/

def FAN_MODE_AUTO : String := "auto"

def FAN_MODE_SLEEP : String := "sleep"

def FAN_MODE_MANUAL : String := "manual"

def MAX_HUMIDITY : Int := 100

def MIN_HUMIDITY : Int := 0

def MAX_FAN_SPEED : Int := 9

def MIN_FAN_SPEED : Int := 0

/-- `PRESET_MODES` from humidifier.py: the per-base-device declared preset
lists.  Only "Classic300S" has an entry. -/
def PRESET_MODES : List (String × List String) :=
  [("Classic300S", [FAN_MODE_AUTO, FAN_MODE_MANUAL, FAN_MODE_SLEEP])]

/-- Modelled from the spec: `SKU_TO_BASE_DEVICE` lives in `const.py`, which is
not part of the excerpt.  The spec names device-type SKU strings
("Classic300S", "Classic200S") that stand for themselves as base devices, so
the map is the identity on the known SKUs. -/
def SKU_TO_BASE_DEVICE : List (String × String) :=
  [("Classic300S", "Classic300S"), ("Classic200S", "Classic200S")]

/-- Python dict lookup `d.get(k)`: first matching key, `none` when absent. -/
def dictLookup {α : Type} (d : List (String × α)) (k : String) : Option α :=
  (d.find? (fun p => p.1 == k)).map (fun p => p.2)

/-- The Python exceptions the adapter can raise. -/
inductive PyError where
  | valueError (msg : String)
  | keyError (key : String)
  deriving Repr, DecidableEq

/-- Commands issued to the opaque device handle (fire-and-forget). -/
inductive Cmd where
  | turnOn
  | setAutoMode
  | setManualMode
  | setHumidityMode (m : String)
  | setHumidity (v : Int)
  | setMistLevel (v : Int)
  deriving Repr, DecidableEq

/-- The device handle's attributes as read by the adapter.  The adapter never
writes these; they change only through the external SDK. -/
structure DeviceState where
  device_type : String
  is_on : Bool
  auto_enabled : Bool
  auto_humidity : Int
  water_tank_lifted : Bool
  deriving Repr, DecidableEq

/-- The entity's cached fields (class attributes of `VeSyncHumidifierHA`).
`last_known_mode` is an `Option String` because `get_latest_info` assigns it
from `display_info.get("Mode")`, which yields `None` when absent. -/
structure EntityState where
  last_known_fan_speed : Int
  last_known_mode : Option String
  deriving Repr, DecidableEq

/-- Class-attribute initial values: `last_known_fan_speed = 1`,
`last_known_mode = ""`. -/
def VeSyncHumidifierHA.init : EntityState :=
  { last_known_fan_speed := 1, last_known_mode := some "" }

/-- Result of one adapter operation: the updated entity state, the commands
sent to the device handle in order, and the exception raised, if any. -/
structure StepResult where
  entity : EntityState
  cmds : List Cmd
  error : Option PyError
  deriving Repr, DecidableEq

/-- `target_humidity` property. -/
def VeSyncHumidifierHA.target_humidity (dev : DeviceState) (e : EntityState) : Int :=
  if e.last_known_mode = some FAN_MODE_MANUAL then e.last_known_fan_speed
  else dev.auto_humidity

/-- `max_humidity` property. -/
def VeSyncHumidifierHA.max_humidity (e : EntityState) : Int :=
  if e.last_known_mode = some FAN_MODE_MANUAL then MAX_FAN_SPEED else MAX_HUMIDITY

/-- `min_humidity` property. -/
def VeSyncHumidifierHA.min_humidity (e : EntityState) : Int :=
  if e.last_known_mode = some FAN_MODE_MANUAL then MIN_FAN_SPEED else MIN_HUMIDITY

/-- `mode` property: "auto" whenever the handle reports `auto_enabled`,
otherwise the cached last-known mode. -/
def VeSyncHumidifierHA.mode (dev : DeviceState) (e : EntityState) : Option String :=
  if dev.auto_enabled then some FAN_MODE_AUTO else e.last_known_mode

/-- `available_modes` property. -/
def VeSyncHumidifierHA.available_modes : List String :=
  [FAN_MODE_MANUAL, FAN_MODE_AUTO, FAN_MODE_SLEEP]

/-- `preset_modes` property:
`PRESET_MODES[SKU_TO_BASE_DEVICE[self.device.device_type]]`.  Either subscript
raises `KeyError` when the key is absent. -/
def VeSyncHumidifierHA.preset_modes (dev : DeviceState) : Except PyError (List String) :=
  match dictLookup SKU_TO_BASE_DEVICE dev.device_type with
  | none => Except.error (PyError.keyError dev.device_type)
  | some base =>
    match dictLookup PRESET_MODES base with
    | none => Except.error (PyError.keyError base)
    | some presets => Except.ok presets

/-- `set_humidity`: turns the device on when off, then forwards the value as a
humidity setpoint when the cached mode is auto or sleep, and otherwise as a
mist level, also caching it in `last_known_fan_speed`. -/
def VeSyncHumidifierHA.set_humidity (dev : DeviceState) (e : EntityState)
    (humidity : Int) : StepResult :=
  let powerCmds := if dev.is_on then [] else [Cmd.turnOn]
  if e.last_known_mode = some FAN_MODE_AUTO ∨ e.last_known_mode = some FAN_MODE_SLEEP then
    { entity := e, cmds := powerCmds ++ [Cmd.setHumidity humidity], error := none }
  else
    { entity := { e with last_known_fan_speed := humidity },
      cmds := powerCmds ++ [Cmd.setMistLevel humidity], error := none }

/-- The `ValueError` message raised by `set_mode` for an unsupported mode.
The source interpolates the preset list with Python repr, which additionally
quotes every element; we keep the bracketed comma-separated listing. -/
def invalidModeMsg (mode : String) (presets : List String) : String :=
  mode ++ " is not one of the valid preset modes: [" ++
    String.intercalate ", " presets ++ "]"

/-- `set_mode`: raises `ValueError` when the requested mode is not in
`preset_modes` (before any side effect); otherwise turns the device on when
off, issues the mode command mirroring the source's `if` / `if`-`elif`
structure, and records the mode in `last_known_mode`. -/
def VeSyncHumidifierHA.set_mode (dev : DeviceState) (e : EntityState)
    (mode : String) : StepResult :=
  match VeSyncHumidifierHA.preset_modes dev with
  | Except.error err => { entity := e, cmds := [], error := some err }
  | Except.ok presets =>
    if mode ∈ presets then
      let powerCmds := if dev.is_on then [] else [Cmd.turnOn]
      let autoCmds := if mode = FAN_MODE_AUTO then [Cmd.setAutoMode] else []
      let manualSleepCmds :=
        if mode = FAN_MODE_MANUAL then [Cmd.setManualMode]
        else if mode = FAN_MODE_SLEEP then [Cmd.setHumidityMode "sleep"]
        else []
      { entity := { e with last_known_mode := some mode },
        cmds := powerCmds ++ autoCmds ++ manualSleepCmds, error := none }
    else
      { entity := e, cmds := [],
        error := some (PyError.valueError (invalidModeMsg mode presets)) }

/-- The parsed `displayJSON()` status snapshot: string keys to string values. -/
structure DisplayInfo where
  entries : List (String × String)
  deriving Repr, DecidableEq

/-- `get_latest_info`: assigns `last_known_mode` from
`display_info.get("Mode")` (so an absent key stores `None`), then assigns
`last_known_fan_speed` from `int(display_info["Mist Virtual Level"])` - a
direct subscript, so an absent key raises `KeyError` after the first
assignment already happened, and a non-numeric value raises `ValueError`. -/
def VeSyncHumidifierHA.get_latest_info (e : EntityState) (snap : DisplayInfo) :
    EntityState × Option PyError :=
  let e1 : EntityState := { e with last_known_mode := dictLookup snap.entries "Mode" }
  match dictLookup snap.entries "Mist Virtual Level" with
  | none => (e1, some (PyError.keyError "Mist Virtual Level"))
  | some v =>
    match v.toInt? with
    | none => (e1, some (PyError.valueError ("invalid literal for int: " ++ v)))
    | some n => ({ e1 with last_known_fan_speed := n }, none)

/-- The water-tank-lifted binary sensor's `is_on` property from
binary_sensor.py: literally `return True`. -/
def VeSyncSensorEntity.is_on (_dev : DeviceState) : Bool :=
  true

/- Concrete states used by witnesses and counterexamples. -/

/-- A Classic300S handle that is on, not in auto mode. -/
def devC300 : DeviceState :=
  { device_type := "Classic300S", is_on := true, auto_enabled := false,
    auto_humidity := 50, water_tank_lifted := false }

/-- The same handle with `auto_enabled` reported true. -/
def devAuto : DeviceState :=
  { devC300 with auto_enabled := true }

/-- An entity whose cached mode is manual. -/
def entManual : EntityState :=
  { last_known_fan_speed := 1, last_known_mode := some "manual" }

/-- A status snapshot without the "Mist Virtual Level" key. -/
def snapNoMist : DisplayInfo :=
  { entries := [("Mode", "manual")] }

/- Helper lemmas shared by several claims. -/

/-- A successful `set_mode` records the requested mode in `last_known_mode`. -/
theorem set_mode_ok_last_known (dev : DeviceState) (e : EntityState) (m : String)
    (h : (VeSyncHumidifierHA.set_mode dev e m).error = none) :
    (VeSyncHumidifierHA.set_mode dev e m).entity.last_known_mode = some m := by
  unfold VeSyncHumidifierHA.set_mode at h ⊢
  cases hp : VeSyncHumidifierHA.preset_modes dev with
  | error err => rw [hp] at h; simp at h
  | ok presets =>
    rw [hp] at h
    by_cases hm : m ∈ presets
    · simp [hm]
    · simp [hm] at h

/-- Claim C1: for every SKU that declares a preset list, `set_mode m` succeeds
exactly when `m` is in that list, and otherwise raises a `ValueError` whose
message lists the valid options. -/
theorem set_mode_valid_mode_iff (dev : DeviceState) (e : EntityState) (m : String)
    (presets : List String)
    (h : VeSyncHumidifierHA.preset_modes dev = Except.ok presets) :
    ((VeSyncHumidifierHA.set_mode dev e m).error = none ↔ m ∈ presets) ∧
    (m ∉ presets →
      (VeSyncHumidifierHA.set_mode dev e m).error =
        some (PyError.valueError (invalidModeMsg m presets))) := by
  unfold VeSyncHumidifierHA.set_mode
  rw [h]
  by_cases hm : m ∈ presets
  · simp [hm]
  · simp [hm]

/-- Witness for C1 at the Classic300S presets, mode "auto". -/
theorem set_mode_valid_mode_iff_witness :
    ((VeSyncHumidifierHA.set_mode devC300 VeSyncHumidifierHA.init "auto").error = none ↔
      "auto" ∈ ["auto", "manual", "sleep"]) ∧
    ("auto" ∉ ["auto", "manual", "sleep"] →
      (VeSyncHumidifierHA.set_mode devC300 VeSyncHumidifierHA.init "auto").error =
        some (PyError.valueError (invalidModeMsg "auto" ["auto", "manual", "sleep"]))) :=
  set_mode_valid_mode_iff devC300 VeSyncHumidifierHA.init "auto"
    ["auto", "manual", "sleep"] (by rfl)

/-- Claim C2 counterexample: polling a snapshot without "Mist Virtual Level"
raises a `KeyError`, contradicting the claim that no exception is raised. -/
theorem get_latest_info_missing_mist_counterexample :
    (VeSyncHumidifierHA.get_latest_info VeSyncHumidifierHA.init snapNoMist).2 =
      some (PyError.keyError "Mist Virtual Level") ∧
    ¬ (VeSyncHumidifierHA.get_latest_info VeSyncHumidifierHA.init snapNoMist).2 = none := by
  constructor
  · rfl
  · intro h
    simp [VeSyncHumidifierHA.get_latest_info, dictLookup, snapNoMist,
      VeSyncHumidifierHA.init] at h

/-- Claim C2 (amended): when "Mist Virtual Level" is absent from the snapshot,
`last_known_fan_speed` retains its prior value, but a `KeyError` is raised
rather than the poll succeeding silently. -/
theorem get_latest_info_missing_mist (e : EntityState) (snap : DisplayInfo)
    (h : dictLookup snap.entries "Mist Virtual Level" = none) :
    (VeSyncHumidifierHA.get_latest_info e snap).1.last_known_fan_speed =
      e.last_known_fan_speed ∧
    (VeSyncHumidifierHA.get_latest_info e snap).2 =
      some (PyError.keyError "Mist Virtual Level") := by
  unfold VeSyncHumidifierHA.get_latest_info
  rw [h]
  exact ⟨rfl, rfl⟩

/-- Witness for the amended C2 at a concrete snapshot missing the key. -/
theorem get_latest_info_missing_mist_witness :
    (VeSyncHumidifierHA.get_latest_info VeSyncHumidifierHA.init snapNoMist).1.last_known_fan_speed =
      VeSyncHumidifierHA.init.last_known_fan_speed ∧
    (VeSyncHumidifierHA.get_latest_info VeSyncHumidifierHA.init snapNoMist).2 =
      some (PyError.keyError "Mist Virtual Level") :=
  get_latest_info_missing_mist VeSyncHumidifierHA.init snapNoMist (by rfl)

/-- Claim C9: the water-tank-lifted binary sensor's `is_on` property returns
`True` for every device state, regardless of any polled attribute. -/
theorem binary_sensor_is_on_always_true (dev : DeviceState) :
    VeSyncSensorEntity.is_on dev = true := rfl

/-- Claim C10: whenever the handle reports `auto_enabled`, the `mode` property
is "auto" regardless of the cached mode; otherwise it is `last_known_mode`. -/
theorem mode_auto_enabled_priority (dev : DeviceState) (e : EntityState) :
    (dev.auto_enabled = true → VeSyncHumidifierHA.mode dev e = some "auto") ∧
    (dev.auto_enabled = false → VeSyncHumidifierHA.mode dev e = e.last_known_mode) := by
  unfold VeSyncHumidifierHA.mode
  constructor <;> intro h <;> simp [h, FAN_MODE_AUTO]

/-- Witness for C10 on both sides of the `auto_enabled` flag. -/
theorem mode_auto_enabled_priority_witness :
    VeSyncHumidifierHA.mode devAuto entManual = some "auto" ∧
    VeSyncHumidifierHA.mode devC300 entManual = entManual.last_known_mode :=
  ⟨(mode_auto_enabled_priority devAuto entManual).1 (by rfl),
   (mode_auto_enabled_priority devC300 entManual).2 (by rfl)⟩

/-- A Classic300S handle that is currently off. -/
def devOff : DeviceState :=
  { devC300 with is_on := false }

/-- A successful `set_mode` also certifies the requested mode was a preset. -/
theorem set_mode_ok_mem (dev : DeviceState) (e : EntityState) (m : String)
    (presets : List String)
    (h : VeSyncHumidifierHA.preset_modes dev = Except.ok presets)
    (hok : (VeSyncHumidifierHA.set_mode dev e m).error = none) :
    m ∈ presets := by
  unfold VeSyncHumidifierHA.set_mode at hok
  rw [h] at hok
  by_cases hm : m ∈ presets
  · exact hm
  · simp [hm] at hok

/-- Claim C3 counterexample: at the freshly initialized entity, the current
mode is "" - not manual - yet `set_humidity 5` sends a mist-level command
rather than the humidity setpoint command the claim requires. -/
theorem set_humidity_nonmanual_counterexample :
    ¬ VeSyncHumidifierHA.mode devC300 VeSyncHumidifierHA.init = some "manual" ∧
    (VeSyncHumidifierHA.set_humidity devC300 VeSyncHumidifierHA.init 5).cmds =
      [Cmd.setMistLevel 5] := by
  constructor
  · intro h
    simp [VeSyncHumidifierHA.mode, devC300, VeSyncHumidifierHA.init] at h
  · rfl

/-- Claim C3 (amended): `set_humidity` sends a humidity setpoint command
exactly when the cached `last_known_mode` is auto or sleep; otherwise -
including manual and the initial "" mode - it sends a mist-level command and
caches the value in `last_known_fan_speed`.  The manual scenario of the claim
holds: after a successful `set_mode "manual"`, `set_humidity 5` caches fan
speed 5 and sends a mist-level command, never a humidity setpoint command. -/
theorem set_humidity_branching (dev : DeviceState) (e : EntityState) (v : Int) :
    ((e.last_known_mode = some "auto" ∨ e.last_known_mode = some "sleep") →
      (VeSyncHumidifierHA.set_humidity dev e v).cmds =
        (if dev.is_on then [] else [Cmd.turnOn]) ++ [Cmd.setHumidity v] ∧
      (VeSyncHumidifierHA.set_humidity dev e v).entity = e) ∧
    (¬ e.last_known_mode = some "auto" → ¬ e.last_known_mode = some "sleep" →
      (VeSyncHumidifierHA.set_humidity dev e v).cmds =
        (if dev.is_on then [] else [Cmd.turnOn]) ++ [Cmd.setMistLevel v] ∧
      (VeSyncHumidifierHA.set_humidity dev e v).entity.last_known_fan_speed = v) ∧
    ((VeSyncHumidifierHA.set_mode dev e "manual").error = none →
      (VeSyncHumidifierHA.set_humidity dev
        (VeSyncHumidifierHA.set_mode dev e "manual").entity 5).entity.last_known_fan_speed = 5 ∧
      Cmd.setMistLevel 5 ∈ (VeSyncHumidifierHA.set_humidity dev
        (VeSyncHumidifierHA.set_mode dev e "manual").entity 5).cmds ∧
      ∀ w : Int, ¬ Cmd.setHumidity w ∈ (VeSyncHumidifierHA.set_humidity dev
        (VeSyncHumidifierHA.set_mode dev e "manual").entity 5).cmds) := by
  refine ⟨?_, ?_, ?_⟩
  · intro h
    unfold VeSyncHumidifierHA.set_humidity
    rw [if_pos (by simpa [FAN_MODE_AUTO, FAN_MODE_SLEEP] using h)]
    exact ⟨rfl, rfl⟩
  · intro h1 h2
    unfold VeSyncHumidifierHA.set_humidity
    rw [if_neg (by simp [FAN_MODE_AUTO, FAN_MODE_SLEEP, h1, h2])]
    exact ⟨rfl, rfl⟩
  · intro hok
    have hl := set_mode_ok_last_known dev e "manual" hok
    unfold VeSyncHumidifierHA.set_humidity
    rw [hl]
    rw [if_neg (by simp [FAN_MODE_AUTO, FAN_MODE_SLEEP])]
    refine ⟨rfl, ?_, ?_⟩
    · by_cases hon : dev.is_on = true <;> simp [hon]
    · intro w
      by_cases hon : dev.is_on = true <;> simp [hon]

/-- Witness for the amended C3: the manual scenario at a concrete entity. -/
theorem set_humidity_branching_witness :
    (VeSyncHumidifierHA.set_humidity devC300
      (VeSyncHumidifierHA.set_mode devC300 VeSyncHumidifierHA.init "manual").entity
        5).entity.last_known_fan_speed = 5 ∧
    Cmd.setMistLevel 5 ∈ (VeSyncHumidifierHA.set_humidity devC300
      (VeSyncHumidifierHA.set_mode devC300 VeSyncHumidifierHA.init "manual").entity 5).cmds ∧
    ∀ w : Int, ¬ Cmd.setHumidity w ∈ (VeSyncHumidifierHA.set_humidity devC300
      (VeSyncHumidifierHA.set_mode devC300 VeSyncHumidifierHA.init "manual").entity 5).cmds :=
  (set_humidity_branching devC300 VeSyncHumidifierHA.init 5).2.2 (by rfl)

/-- Claim C4 counterexample: with the handle reporting `auto_enabled` while
the cached mode is still manual, the mode property reads "auto" yet the
maximum humidity is 9, not 100. -/
theorem humidity_range_auto_counterexample :
    VeSyncHumidifierHA.mode devAuto entManual = some "auto" ∧
    VeSyncHumidifierHA.max_humidity entManual = 9 ∧
    ¬ VeSyncHumidifierHA.max_humidity entManual = 100 := by
  refine ⟨rfl, rfl, by decide⟩

/-- Claim C4 (amended): the humidity range is decided by the cached
`last_known_mode`, not the mode property: it is [0,9] whenever the current
mode is manual (and more generally whenever `last_known_mode` is manual, even
if the mode property reads "auto"), and [0,100] whenever `last_known_mode` is
not manual. -/
theorem humidity_range_by_mode (dev : DeviceState) (e : EntityState) :
    (VeSyncHumidifierHA.mode dev e = some "manual" →
      VeSyncHumidifierHA.min_humidity e = 0 ∧ VeSyncHumidifierHA.max_humidity e = 9) ∧
    (¬ e.last_known_mode = some "manual" →
      VeSyncHumidifierHA.min_humidity e = 0 ∧ VeSyncHumidifierHA.max_humidity e = 100) ∧
    (e.last_known_mode = some "manual" →
      VeSyncHumidifierHA.min_humidity e = 0 ∧ VeSyncHumidifierHA.max_humidity e = 9) := by
  refine ⟨?_, ?_, ?_⟩
  · intro h
    unfold VeSyncHumidifierHA.mode at h
    by_cases ha : dev.auto_enabled = true
    · rw [if_pos ha] at h
      exact absurd h (by simp [FAN_MODE_AUTO])
    · rw [if_neg ha] at h
      simp [VeSyncHumidifierHA.min_humidity, VeSyncHumidifierHA.max_humidity, h,
        FAN_MODE_MANUAL, MIN_FAN_SPEED, MAX_FAN_SPEED]
  · intro h
    simp [VeSyncHumidifierHA.min_humidity, VeSyncHumidifierHA.max_humidity,
      FAN_MODE_MANUAL, h, MIN_HUMIDITY, MAX_HUMIDITY]
  · intro h
    simp [VeSyncHumidifierHA.min_humidity, VeSyncHumidifierHA.max_humidity, h,
      FAN_MODE_MANUAL, MIN_FAN_SPEED, MAX_FAN_SPEED]

/-- Witness for the amended C4 on both kinds of cached mode. -/
theorem humidity_range_by_mode_witness :
    (VeSyncHumidifierHA.min_humidity entManual = 0 ∧
      VeSyncHumidifierHA.max_humidity entManual = 9) ∧
    (VeSyncHumidifierHA.min_humidity VeSyncHumidifierHA.init = 0 ∧
      VeSyncHumidifierHA.max_humidity VeSyncHumidifierHA.init = 100) :=
  ⟨(humidity_range_by_mode devC300 entManual).1 (by rfl),
   (humidity_range_by_mode devC300 VeSyncHumidifierHA.init).2.1 (by decide)⟩

/-- Evaluation of `set_mode` on a supported mode. -/
theorem set_mode_ok_eq (dev : DeviceState) (e : EntityState) (m : String)
    (presets : List String)
    (h : VeSyncHumidifierHA.preset_modes dev = Except.ok presets) (hm : m ∈ presets) :
    VeSyncHumidifierHA.set_mode dev e m =
      { entity := { e with last_known_mode := some m },
        cmds := (if dev.is_on then [] else [Cmd.turnOn]) ++
          (if m = FAN_MODE_AUTO then [Cmd.setAutoMode] else []) ++
          (if m = FAN_MODE_MANUAL then [Cmd.setManualMode]
           else if m = FAN_MODE_SLEEP then [Cmd.setHumidityMode "sleep"] else []),
        error := none } := by
  unfold VeSyncHumidifierHA.set_mode
  rw [h]
  exact if_pos hm

/-- Evaluation of `set_mode` on an unsupported mode. -/
theorem set_mode_notmem_eq (dev : DeviceState) (e : EntityState) (m : String)
    (presets : List String)
    (h : VeSyncHumidifierHA.preset_modes dev = Except.ok presets) (hm : ¬ m ∈ presets) :
    VeSyncHumidifierHA.set_mode dev e m =
      { entity := e, cmds := [],
        error := some (PyError.valueError (invalidModeMsg m presets)) } := by
  unfold VeSyncHumidifierHA.set_mode
  rw [h]
  exact if_neg hm

/-- Claim C5 counterexample: right after initialization, with the handle not
reporting auto mode, the entity mode is "" - not one of the Classic300S
declared presets - so the invariant fails before any `set_mode`. -/
theorem mode_invariant_init_counterexample :
    VeSyncHumidifierHA.preset_modes devC300 = Except.ok ["auto", "manual", "sleep"] ∧
    VeSyncHumidifierHA.mode devC300 VeSyncHumidifierHA.init = some "" ∧
    ¬ "" ∈ ["auto", "manual", "sleep"] := by
  refine ⟨rfl, rfl, by decide⟩

/-- Claim C5 (amended): the invariant holds after every successful `set_mode`
(for a SKU whose preset list contains "auto"): whatever the handle later
reports for `auto_enabled`, the mode property is one of the declared presets.
Initialization and polls do not establish it. -/
theorem set_mode_preserves_preset_invariant (dev dev2 : DeviceState) (e : EntityState)
    (m : String) (presets : List String)
    (h : VeSyncHumidifierHA.preset_modes dev = Except.ok presets)
    (hauto : "auto" ∈ presets)
    (hok : (VeSyncHumidifierHA.set_mode dev e m).error = none) :
    ∃ p ∈ presets,
      VeSyncHumidifierHA.mode dev2 (VeSyncHumidifierHA.set_mode dev e m).entity = some p := by
  have hl := set_mode_ok_last_known dev e m hok
  have hm := set_mode_ok_mem dev e m presets h hok
  unfold VeSyncHumidifierHA.mode
  by_cases ha : dev2.auto_enabled = true
  · exact ⟨"auto", hauto, by simp [ha, FAN_MODE_AUTO]⟩
  · exact ⟨m, hm, by simp [ha, hl]⟩

/-- Witness for the amended C5 at a concrete successful `set_mode "sleep"`. -/
theorem set_mode_preserves_preset_invariant_witness :
    ∃ p ∈ ["auto", "manual", "sleep"],
      VeSyncHumidifierHA.mode devAuto
        (VeSyncHumidifierHA.set_mode devC300 VeSyncHumidifierHA.init "sleep").entity =
          some p :=
  set_mode_preserves_preset_invariant devC300 devAuto VeSyncHumidifierHA.init "sleep"
    ["auto", "manual", "sleep"] (by rfl) (by decide) (by rfl)

/-- Claim C6: on a Classic300S handle that does not report auto mode,
`set_mode "sleep"` succeeds, the device receives the sleep command
`set_humidity_mode("sleep")`, and the mode property then reads "sleep". -/
theorem set_mode_sleep_scenario (dev : DeviceState) (e : EntityState)
    (hsku : dev.device_type = "Classic300S") (hauto : dev.auto_enabled = false) :
    (VeSyncHumidifierHA.set_mode dev e "sleep").error = none ∧
    Cmd.setHumidityMode "sleep" ∈ (VeSyncHumidifierHA.set_mode dev e "sleep").cmds ∧
    VeSyncHumidifierHA.mode dev (VeSyncHumidifierHA.set_mode dev e "sleep").entity =
      some "sleep" := by
  have hp : VeSyncHumidifierHA.preset_modes dev = Except.ok ["auto", "manual", "sleep"] := by
    unfold VeSyncHumidifierHA.preset_modes
    rw [hsku]
    rfl
  rw [set_mode_ok_eq dev e "sleep" ["auto", "manual", "sleep"] hp (by decide)]
  refine ⟨rfl, ?_, ?_⟩
  · simp [FAN_MODE_AUTO, FAN_MODE_MANUAL, FAN_MODE_SLEEP]
  · unfold VeSyncHumidifierHA.mode
    simp [hauto]

/-- Witness for C6 at a concrete Classic300S handle. -/
theorem set_mode_sleep_scenario_witness :
    (VeSyncHumidifierHA.set_mode devC300 VeSyncHumidifierHA.init "sleep").error = none ∧
    Cmd.setHumidityMode "sleep" ∈
      (VeSyncHumidifierHA.set_mode devC300 VeSyncHumidifierHA.init "sleep").cmds ∧
    VeSyncHumidifierHA.mode devC300
      (VeSyncHumidifierHA.set_mode devC300 VeSyncHumidifierHA.init "sleep").entity =
        some "sleep" :=
  set_mode_sleep_scenario devC300 VeSyncHumidifierHA.init (by rfl) (by rfl)

/-- Claim C7: for a mode outside the declared preset list, `set_mode` raises
and leaves everything unchanged: the cached entity state is untouched and no
command at all - in particular no power-on - reaches the device. -/
theorem set_mode_invalid_no_change (dev : DeviceState) (e : EntityState) (m : String)
    (presets : List String)
    (h : VeSyncHumidifierHA.preset_modes dev = Except.ok presets)
    (hm : ¬ m ∈ presets) :
    ¬ (VeSyncHumidifierHA.set_mode dev e m).error = none ∧
    (VeSyncHumidifierHA.set_mode dev e m).entity = e ∧
    (VeSyncHumidifierHA.set_mode dev e m).cmds = [] := by
  rw [set_mode_notmem_eq dev e m presets h hm]
  exact ⟨by simp, rfl, rfl⟩

/-- Witness for C7 at the mode "bogus" on a Classic300S entity. -/
theorem set_mode_invalid_no_change_witness :
    ¬ (VeSyncHumidifierHA.set_mode devC300 entManual "bogus").error = none ∧
    (VeSyncHumidifierHA.set_mode devC300 entManual "bogus").entity = entManual ∧
    (VeSyncHumidifierHA.set_mode devC300 entManual "bogus").cmds = [] :=
  set_mode_invalid_no_change devC300 entManual "bogus" ["auto", "manual", "sleep"]
    (by rfl) (by decide)

/-- Claim C8: a successful `set_mode m` records `m` as the last-known mode,
prepends a power-on command exactly when the device is off, and issues
exactly the mode command matching `m`: auto-mode for "auto", manual-mode for
"manual", and the sleep command for "sleep". -/
theorem set_mode_valid_commands (dev : DeviceState) (e : EntityState) (m : String)
    (presets : List String)
    (h : VeSyncHumidifierHA.preset_modes dev = Except.ok presets)
    (hm : m ∈ presets) :
    (VeSyncHumidifierHA.set_mode dev e m).error = none ∧
    (VeSyncHumidifierHA.set_mode dev e m).entity.last_known_mode = some m ∧
    (dev.is_on = false → Cmd.turnOn ∈ (VeSyncHumidifierHA.set_mode dev e m).cmds) ∧
    (dev.is_on = true → ¬ Cmd.turnOn ∈ (VeSyncHumidifierHA.set_mode dev e m).cmds) ∧
    (m = "auto" → (VeSyncHumidifierHA.set_mode dev e m).cmds =
      (if dev.is_on then [] else [Cmd.turnOn]) ++ [Cmd.setAutoMode]) ∧
    (m = "manual" → (VeSyncHumidifierHA.set_mode dev e m).cmds =
      (if dev.is_on then [] else [Cmd.turnOn]) ++ [Cmd.setManualMode]) ∧
    (m = "sleep" → (VeSyncHumidifierHA.set_mode dev e m).cmds =
      (if dev.is_on then [] else [Cmd.turnOn]) ++ [Cmd.setHumidityMode "sleep"]) := by
  rw [set_mode_ok_eq dev e m presets h hm]
  refine ⟨rfl, rfl, ?_, ?_, ?_, ?_, ?_⟩
  · intro hon
    simp [hon]
  · intro hon
    simp only [hon]
    split_ifs <;> simp
  · intro hme
    subst hme
    simp [FAN_MODE_AUTO, FAN_MODE_MANUAL, FAN_MODE_SLEEP]
  · intro hme
    subst hme
    simp [FAN_MODE_AUTO, FAN_MODE_MANUAL, FAN_MODE_SLEEP]
  · intro hme
    subst hme
    simp [FAN_MODE_AUTO, FAN_MODE_MANUAL, FAN_MODE_SLEEP]

/-- Witness for C8: `set_mode "manual"` on a powered-off Classic300S. -/
theorem set_mode_valid_commands_witness :
    (VeSyncHumidifierHA.set_mode devOff VeSyncHumidifierHA.init "manual").error = none ∧
    (VeSyncHumidifierHA.set_mode devOff VeSyncHumidifierHA.init "manual").entity.last_known_mode =
      some "manual" ∧
    (devOff.is_on = false →
      Cmd.turnOn ∈ (VeSyncHumidifierHA.set_mode devOff VeSyncHumidifierHA.init "manual").cmds) ∧
    (devOff.is_on = true →
      ¬ Cmd.turnOn ∈ (VeSyncHumidifierHA.set_mode devOff VeSyncHumidifierHA.init "manual").cmds) ∧
    ("manual" = "auto" →
      (VeSyncHumidifierHA.set_mode devOff VeSyncHumidifierHA.init "manual").cmds =
        (if devOff.is_on then [] else [Cmd.turnOn]) ++ [Cmd.setAutoMode]) ∧
    ("manual" = "manual" →
      (VeSyncHumidifierHA.set_mode devOff VeSyncHumidifierHA.init "manual").cmds =
        (if devOff.is_on then [] else [Cmd.turnOn]) ++ [Cmd.setManualMode]) ∧
    ("manual" = "sleep" →
      (VeSyncHumidifierHA.set_mode devOff VeSyncHumidifierHA.init "manual").cmds =
        (if devOff.is_on then [] else [Cmd.turnOn]) ++ [Cmd.setHumidityMode "sleep"]) :=
  set_mode_valid_commands devOff VeSyncHumidifierHA.init "manual"
    ["auto", "manual", "sleep"] (by rfl) (by decide)
